import Mathlib

/-
Verification of the linkedin_job_scraper retrieval-and-filtering pipeline.

Shallow embedding of the scraper module (job_scraper.py): Python strings are
lists of characters, dataframes are lists of row structures carrying the
columns each operation touches, the network is an oracle script mapping each
attempt (or page, or job id) to its outcome, and the random backoff draw is
an oracle sequence of unit-interval rationals.
-/

namespace JobScraper

/-- `str.lower()`: lower-case every character. -/
def pyLower (s : List Char) : List Char := s.map Char.toLower

/-- Python's `pat in s` on strings: substring containment. -/
def isSubstr (pat s : List Char) : Bool :=
  (List.range (s.length + 1)).any (fun i => pat.isPrefixOf (s.drop i))

/-- `contains_keywords(string, keywords)`: lower-cases the string, then
returns true iff some keyword (lower-cased) occurs in it as a substring. -/
def contains_keywords (s : List Char) (keywords : List (List Char)) : Bool :=
  let t := pyLower s
  keywords.any (fun k => isSubstr (pyLower k) t)

/-- The `C.UNKNOWN` sentinel string. -/
def UNKNOWN : List Char := "UNKNOWN".data

/-- Row selection by an optional index filter: a row is selected when the
filter is absent (`df.index`, i.e. everything) or contains the row index. -/
def selected (index_filter : Option (List Nat)) (i : Nat) : Bool :=
  match index_filter with
  | none => true
  | some l => l.contains i

/-- A dataframe row as seen by `filter_job_titles`: its index, its title
column, and the `keep_job_after_title_filter` column (`none` = NaN, the
column value was never assigned for this row). -/
structure TitleRow where
  idx : Nat
  title : List Char
  keep : Option Bool
deriving Repr, DecidableEq

/-- The per-row indicator dictionary `i` of `filter_job_titles`, with its
default values `always_keep = False`, `keep = True`, `discard = False`
used when the corresponding keyword iterable is `None`. -/
structure TitleIndicators where
  always_keep : Bool
  keep : Bool
  discard : Bool
deriving Repr, DecidableEq

/-- The three indicators of one row: each is `contains_keywords` of the
title against its keyword set when that set is supplied, else the default. -/
def titleIndicators (keywords_always_keep keywords_keep keywords_discard :
    Option (List (List Char))) (title : List Char) : TitleIndicators :=
  { always_keep :=
      match keywords_always_keep with
      | none => false
      | some ks => contains_keywords title ks
    keep :=
      match keywords_keep with
      | none => true
      | some ks => contains_keywords title ks
    discard :=
      match keywords_discard with
      | none => false
      | some ks => contains_keywords title ks }

/-- The row update performed by `filter_job_titles` on a selected row:
store `always_keep | (keep & ~discard)` in the verdict column. -/
def titleFilterAssign (keywords_always_keep keywords_keep keywords_discard :
    Option (List (List Char))) (r : TitleRow) : TitleRow :=
  let i := titleIndicators keywords_always_keep keywords_keep
    keywords_discard r.title
  { r with keep := some (i.always_keep || (i.keep && !i.discard)) }

/-- How `filter_job_titles` can raise: the opening `assert` failing
(all three keyword iterables `None`), or the final
`df[df[KEY_KEEP_JOB_AFTER_TITLE_FILTER]]` raising `ValueError` because the
boolean mask contains NaN — a row outside the selected subset whose
verdict column was never assigned. -/
inductive TitleFilterError where
  | assertionError
  | valueError
deriving Repr, DecidableEq

/-- `filter_job_titles(df, keywords_always_keep, keywords_keep,
keywords_discard, index_filter)`: asserts that not all three keyword
iterables are `None` (`AssertionError` otherwise), assigns the verdict
column on the selected rows, and evaluates
`df[df[KEY_KEEP_JOB_AFTER_TITLE_FILTER]]`: if any row's verdict is still
missing (NaN in the boolean mask) pandas raises `ValueError`; otherwise the
rows whose stored verdict is true are returned. -/
def filter_job_titles (df : List TitleRow)
    (keywords_always_keep keywords_keep keywords_discard :
      Option (List (List Char)))
    (index_filter : Option (List Nat)) :
    Except TitleFilterError (List TitleRow) :=
  if keywords_always_keep.isNone && keywords_keep.isNone &&
      keywords_discard.isNone then
    Except.error TitleFilterError.assertionError
  else
    let df1 := df.map (fun r =>
      if selected index_filter r.idx then
        titleFilterAssign keywords_always_keep keywords_keep
          keywords_discard r
      else r)
    if df1.all (fun r => r.keep.isSome) then
      Except.ok (df1.filter (fun r => r.keep == some true))
    else
      Except.error TitleFilterError.valueError

/-- The outcome of one `self.session.get(url, ...)` attempt: either a raised
`RequestException`/`SystemError`, or a response with a status code and a
body (the body is opaque to the retry logic and modelled as a number). -/
inductive Attempt where
  | exc
  | resp (status : Nat) (content : Nat)
deriving Repr, DecidableEq

/-- How a `get_html` call ends: `ok content` is a normal return of
`BeautifulSoup(res.content)`; the three error constructors are the raised
`SystemError` (no usable response at all), `TimeoutError` (final status
429), and `BadStatusCode sc`. -/
inductive FetchOutcome where
  | ok (content : Nat)
  | transportFailure
  | rateLimited
  | badStatus (sc : Nat)
deriving Repr, DecidableEq

/-- Observable trace of one `get_html` call: its outcome, how many requests
were issued, and the durations of the backoff sleeps in order. -/
structure FetchTrace where
  outcome : FetchOutcome
  nRequests : Nat
  sleeps : List ℚ
deriving Repr, DecidableEq

def MAX_TRIES : Nat := 20

def MIN_TIMEOUT_ON_429 : ℚ := 1

def MAX_TIMEOUT_ON_429 : ℚ := 5

/-- `random.uniform(a, b) = a + (b - a) * r` where `r` is the unit-interval
draw of the underlying generator. -/
def uniform (a b r : ℚ) : ℚ := a + (b - a) * r

/-- The code after the retry loop of `get_html`: `res is None` raises
`SystemError`; a final 429 raises `TimeoutError`; any other non-200 final
status raises `BadStatusCode`; otherwise the response body is parsed. -/
def get_html_finish (res : Option (Nat × Nat)) (nReq : Nat)
    (sleeps : List ℚ) : FetchTrace :=
  match res with
  | none => ⟨FetchOutcome.transportFailure, nReq, sleeps⟩
  | some (sc, content) =>
    if sc = 429 then ⟨FetchOutcome.rateLimited, nReq, sleeps⟩
    else if sc ≠ 200 then ⟨FetchOutcome.badStatus sc, nReq, sleeps⟩
    else ⟨FetchOutcome.ok content, nReq, sleeps⟩

/-- The retry loop `for i in range(MAX_TRIES)` of `get_html`, with `tries`
attempts left and `i` the current attempt index. `script i` is what the
`i`-th `session.get` does; `rng k` is the unit draw of the `k`-th call of
`random.uniform`. `res` holds the most recent response obtained, if any:
an attempt that raises keeps the previous one. Status 200 and status 400
break out of the loop; status 429 sleeps `uniform(MIN, MAX)` and retries;
any other status retries without backoff. -/
def get_html_go (script : Nat → Attempt) (rng : Nat → ℚ) :
    Nat → Nat → Option (Nat × Nat) → Nat → List ℚ → FetchTrace
  | 0, _, res, nReq, sleeps => get_html_finish res nReq sleeps
  | tries + 1, i, res, nReq, sleeps =>
    match script i with
    | Attempt.exc => get_html_go script rng tries (i + 1) res (nReq + 1) sleeps
    | Attempt.resp sc content =>
      if sc = 200 then
        get_html_finish (some (sc, content)) (nReq + 1) sleeps
      else if sc = 429 then
        get_html_go script rng tries (i + 1) (some (sc, content)) (nReq + 1)
          (sleeps ++ [uniform MIN_TIMEOUT_ON_429 MAX_TIMEOUT_ON_429
            (rng sleeps.length)])
      else if sc = 400 then
        get_html_finish (some (sc, content)) (nReq + 1) sleeps
      else
        get_html_go script rng tries (i + 1) (some (sc, content)) (nReq + 1)
          sleeps

/-- `LinkedinSession.get_html` for a scripted session: run the retry loop
starting with no response received. -/
def get_html (script : Nat → Attempt) (rng : Nat → ℚ) : FetchTrace :=
  get_html_go script rng MAX_TRIES 0 none 0 []

/-- `ceil_div(n, d) = -(n // -d)` with Python's floor division (`Int.fdiv`). -/
def ceil_div (n d : Int) : Int := -(Int.fdiv n (-d))

def N_JOBS_PER_PAGE : Nat := 10

/-- The errors `_get_job_page` catches from `get_html`: `SystemError`
(transport failure), `TimeoutError` (rate limited), `BadStatusCode`. -/
inductive FetchErr where
  | transportFailure
  | rateLimited
  | badRequest (sc : Nat)
deriving Repr, DecidableEq

/-- What fetching one listing page does: either `get_html` raises one of the
three fetch errors (so `_get_job_page` returns `None`), or it returns a
page whose `find_all("li")` entries extract to the given job records
(records are opaque to the pagination logic and modelled as numbers). -/
inductive PageResult where
  | fetchError (e : FetchErr)
  | page (entries : List Nat)
deriving Repr, DecidableEq

/-- Observable trace of one `scrape_jobs` call: the listing pages requested
in order, the gathered job records in page-then-entry order, and how many
warnings were logged by `_get_job_page`. -/
structure ScrapeTrace where
  requestedPages : List Nat
  jobs : List Nat
  warnings : Nat
deriving Repr, DecidableEq

/-- The pagination loop of `scrape_jobs` over the remaining page numbers:
a fetch error logs a warning and breaks; a page with zero entries falls
through to the next page (`continue`); otherwise its records are appended
in entry order. -/
def scrape_loop (script : Nat → PageResult) :
    List Nat → ScrapeTrace → ScrapeTrace
  | [], tr => tr
  | p :: rest, tr =>
    match script p with
    | PageResult.fetchError _ =>
      { tr with
        requestedPages := tr.requestedPages ++ [p]
        warnings := tr.warnings + 1 }
    | PageResult.page es =>
      scrape_loop script rest
        { requestedPages := tr.requestedPages ++ [p]
          jobs := tr.jobs ++ es
          warnings := tr.warnings }

/-- `LinkedinJobScraper.scrape_jobs` with the number of jobs supplied: walk
`range(page_start, ceil_div(n_jobs, N_JOBS_PER_PAGE))` with the pagination
loop, starting from an empty collection. -/
def scrape_jobs (script : Nat → PageResult) (page_start : Nat)
    (n_jobs : Int) : ScrapeTrace :=
  scrape_loop script
    (List.range' page_start
      ((ceil_div n_jobs (Int.ofNat N_JOBS_PER_PAGE)).toNat - page_start))
    ⟨[], [], 0⟩

/-- What fetching one job posting page does, as seen by
`get_html_job_description`: either `get_html` returns a document in which
the `find` for the description element yields `some` text (its prettified
form) or `none`, or `get_html` raises one of the three fetch errors. -/
inductive DescrFetch where
  | doc (descrElem : Option (List Char))
  | err (e : FetchErr)
deriving Repr, DecidableEq

/-- `LinkedinJobScraper.get_html_job_description(job_id)`: returns the found
description element, `None` on a missing element or on the CAUGHT errors
`TimeoutError` and `BadStatusCode`; a `SystemError` is not caught and
propagates (modelled as `Except.error`). -/
def get_html_job_description (fetch : List Char → DescrFetch)
    (job_id : List Char) : Except Unit (Option (List Char)) :=
  match fetch job_id with
  | DescrFetch.doc d => Except.ok d
  | DescrFetch.err FetchErr.rateLimited => Except.ok none
  | DescrFetch.err (FetchErr.badRequest _) => Except.ok none
  | DescrFetch.err FetchErr.transportFailure => Except.error ()

/-- A dataframe row as seen by `get_job_descriptions`: its index, the
`job_id` column, the `description_html` column (`none` = the column is
absent or holds `None` for this row), and the `has_job_description`
column. -/
structure DescRow where
  idx : Nat
  jobId : List Char
  description : Option (List Char)
  hasDescription : Bool
deriving Repr, DecidableEq

/-- `LinkedinJobScraper.get_job_descriptions(df, index_filter)`: for every
selected row, fetch the description and store its prettified text, or the
`UNKNOWN` sentinel when `get_html_job_description` returned `None`; an
uncaught `SystemError` aborts the pass. Then recompute
`has_job_description` as `~isnull(description_html)` on every row and
return the rows where it is true. -/
def get_job_descriptions (df : List DescRow)
    (index_filter : Option (List Nat)) (fetch : List Char → DescrFetch) :
    Except Unit (List DescRow) := do
  let df1 ← df.mapM (fun r =>
    if selected index_filter r.idx then do
      let descr ← get_html_job_description fetch r.jobId
      pure { r with description := some (descr.getD UNKNOWN) }
    else
      pure r)
  let df2 := df1.map (fun r =>
    { r with hasDescription := r.description.isSome })
  pure (df2.filter (fun r => r.hasDescription))

/-- `str.capitalize()`: upper-case the first character, lower-case the
rest. -/
def pyCapitalize : List Char → List Char
  | [] => []
  | c :: rest => c.toUpper :: rest.map Char.toLower

/-- Modelled from the spec: the constant `C.HTML_KEYWORD_MARK` is referenced
by `mark_keywords_html` but its definition is not among the provided
sources; per the spec it is an inline highlight marker wrapped around the
(capitalized) keyword. -/
def HTML_KEYWORD_MARK_format (keyword : List Char) : List Char :=
  "<mark>".data ++ keyword ++ "</mark>".data

/-- Scanner for `subnIC`, structurally recursive on a fuel argument; every
step consumes at least one character, so fuel equal to the string length is
never exhausted. -/
def subnICGo (pat repl : List Char) : Nat → List Char → List Char × Nat
  | 0, s => (s, 0)
  | fuel + 1, s =>
    match s with
    | [] => ([], 0)
    | c :: rest =>
      if pat ≠ [] ∧ (pyLower pat).isPrefixOf (pyLower (c :: rest)) then
        let t := subnICGo pat repl fuel ((c :: rest).drop pat.length)
        (repl ++ t.1, t.2 + 1)
      else
        let t := subnICGo pat repl fuel rest
        (c :: t.1, t.2)

/-- `re.subn(pattern, repl, string, flags=IGNORECASE)` for a literal
pattern: replace the non-overlapping, leftmost case-insensitive occurrences
of `pat` and count them. -/
def subnIC (pat repl s : List Char) : List Char × Nat :=
  subnICGo pat repl s.length s

/-- `mark_keywords_html(string, keywords)`: substitute every
case-insensitive occurrence of each keyword by the highlight marker
holding the capitalized keyword, and report whether any keyword was
found. -/
def mark_keywords_html (s : List Char) (keywords : List (List Char)) :
    Bool × List Char :=
  keywords.foldl
    (fun acc keyword =>
      let t := subnIC keyword
        (HTML_KEYWORD_MARK_format (pyCapitalize keyword)) acc.2
      (acc.1 || decide (0 < t.2), t.1))
    (false, s)

/-- A value of the `descr_contains_keyword` column: a boolean verdict or
the `UNKNOWN` sentinel string. -/
inductive DV where
  | b (x : Bool)
  | unknown
deriving Repr, DecidableEq

/-- A dataframe row as seen by `filter_job_descriptions`: its index, the
`description_html` column (`none` = `None`), the `descr_contains_keyword`
column (`none` = never assigned) and the `description_html_marked`
column. -/
structure FilterDescrRow where
  idx : Nat
  description : Option (List Char)
  verdict : Option DV
  marked : Option (List Char)
deriving Repr, DecidableEq

/-- The body of the `filter_job_descriptions` loop on one selected row: a
`None` description is skipped; a description equal to `UNKNOWN` gets the
`UNKNOWN` verdict; otherwise the verdict is whether a keyword occurs, via
`mark_keywords_html` (storing the marked text) when `mark_keywords` is
set, else via `contains_keywords` on the lower-cased description. -/
def descrFilterRowUpdate (keywords : List (List Char)) (mark_keywords : Bool)
    (r : FilterDescrRow) : FilterDescrRow :=
  match r.description with
  | none => r
  | some descr =>
    if descr ≠ UNKNOWN then
      if mark_keywords then
        let t := mark_keywords_html descr keywords
        { r with verdict := some (DV.b t.1), marked := some t.2 }
      else
        { r with
          verdict := some (DV.b (contains_keywords (pyLower descr) keywords)) }
    else
      { r with verdict := some DV.unknown }

/-- `filter_job_descriptions(df, keywords, index_filter, mark_keywords)`:
reset the verdict and marked columns to `None` on every row, run the loop
body on the selected rows, and return the rows whose verdict is in
`[True, UNKNOWN]`. -/
def filter_job_descriptions (df : List FilterDescrRow)
    (keywords : List (List Char)) (index_filter : Option (List Nat))
    (mark_keywords : Bool) : List FilterDescrRow :=
  let df1 := df.map (fun r => { r with verdict := none, marked := none })
  let df2 := df1.map (fun r =>
    if selected index_filter r.idx then
      descrFilterRowUpdate keywords mark_keywords r
    else r)
  df2.filter (fun r =>
    r.verdict == some (DV.b true) || r.verdict == some DV.unknown)

/-- The `WL` enum of LinkedIn work locations. -/
inductive WL where
  | ON_SITE
  | REMOTE
  | HYBRID
deriving Repr, DecidableEq

/-- The `value` of a `WL` member: `ON_SITE = "1"`, `REMOTE = "2"`,
`HYBRID = "3"`. -/
def WL.value : WL → List Char
  | WL.ON_SITE => "1".data
  | WL.REMOTE => "2".data
  | WL.HYBRID => "3".data

/-- `LinkedinJobScraper._join_wl(work_location)`: the `value` strings of the
entries, in the order of the passed iterable, joined by commas. -/
def join_wl (work_location : List WL) : List Char :=
  List.intercalate ",".data (work_location.map WL.value)

/-- `convert_days_to_sec(n_days) = n_days * 3600 * 24`. -/
def convert_days_to_sec (n_days : Int) : Int := n_days * 3600 * 24

/-- The dictionary built by `LinkedinJobScraper._format_url_metadata`. -/
structure UrlMetadata where
  n_seconds : Int
  work_location : List Char
  keywords : List Char
  location : List Char
  geo_id : List Char
deriving Repr, DecidableEq

/-- `LinkedinJobScraper._format_url_metadata(keywords, n_days, location,
geo_id, work_location)`: the search parameters as URL metadata. -/
def format_url_metadata (keywords : List Char) (n_days : Int)
    (location : List Char) (geo_id : List Char) (work_location : List WL) :
    UrlMetadata :=
  { n_seconds := convert_days_to_sec n_days
    work_location := join_wl work_location
    keywords := keywords
    location := location
    geo_id := geo_id }

/-- Modelled from the spec: the work-location request parameter as §3 and
§8 describe it, the codes of the supplied work-location set joined by
commas in the fixed enum order `ON_SITE = 1, REMOTE = 2, HYBRID = 3`,
regardless of the order in which the set is supplied. -/
def join_wl_spec_enum_order (work_location : List WL) : List Char :=
  List.intercalate ",".data
    (([WL.ON_SITE, WL.REMOTE, WL.HYBRID].filter
      (fun w => work_location.contains w)).map WL.value)

/-- An independent recursive characterisation of "the code strings of the
entries, joined by commas, in the order of the supplied iterable", used to
state the amended C9. -/
def join_wl_spec_input_order : List WL → List Char
  | [] => []
  | [w] => w.value
  | w :: w2 :: rest => w.value ++ ',' :: join_wl_spec_input_order (w2 :: rest)

/-- Claim C2: for every `get_html` call whose scripted response statuses
are `[429, 429, 200]`, exactly two backoff sleeps occur, each of a duration
drawn uniformly from `[MIN_TIMEOUT_ON_429, MAX_TIMEOUT_ON_429] = [1s, 5s]`,
and the call returns successfully with the document parsed from the third
response. -/
theorem C2_get_html_retries_on_429 (script : Nat → Attempt) (rng : Nat → ℚ)
    (c0 c1 c2 : Nat)
    (h0 : script 0 = Attempt.resp 429 c0) (h1 : script 1 = Attempt.resp 429 c1)
    (h2 : script 2 = Attempt.resp 200 c2)
    (hr : ∀ k, 0 ≤ rng k ∧ rng k ≤ 1) :
    get_html script rng =
      ⟨FetchOutcome.ok c2, 3,
        [uniform MIN_TIMEOUT_ON_429 MAX_TIMEOUT_ON_429 (rng 0),
         uniform MIN_TIMEOUT_ON_429 MAX_TIMEOUT_ON_429 (rng 1)]⟩ ∧
      (get_html script rng).sleeps.length = 2 ∧
      ∀ d ∈ (get_html script rng).sleeps,
        MIN_TIMEOUT_ON_429 ≤ d ∧ d ≤ MAX_TIMEOUT_ON_429 := by
  have htr : get_html script rng =
      ⟨FetchOutcome.ok c2, 3,
        [uniform MIN_TIMEOUT_ON_429 MAX_TIMEOUT_ON_429 (rng 0),
         uniform MIN_TIMEOUT_ON_429 MAX_TIMEOUT_ON_429 (rng 1)]⟩ := by
    simp [get_html, MAX_TRIES, get_html_go, h0, h1, h2, get_html_finish]
  refine ⟨htr, ?_, ?_⟩
  · rw [htr]
    rfl
  · rw [htr]
    intro d hd
    have hb : ∀ k, MIN_TIMEOUT_ON_429 ≤
        uniform MIN_TIMEOUT_ON_429 MAX_TIMEOUT_ON_429 (rng k) ∧
        uniform MIN_TIMEOUT_ON_429 MAX_TIMEOUT_ON_429 (rng k) ≤
          MAX_TIMEOUT_ON_429 := by
      intro k
      obtain ⟨hk0, hk1⟩ := hr k
      unfold uniform MIN_TIMEOUT_ON_429 MAX_TIMEOUT_ON_429
      constructor <;> nlinarith
    simp only [List.mem_cons, List.not_mem_nil, or_false] at hd
    rcases hd with rfl | rfl
    · exact hb 0
    · exact hb 1

/-- Witness for C2 at a concrete scripted session. -/
theorem C2_witness :
    get_html
      (fun i => if i < 2 then Attempt.resp 429 4 else Attempt.resp 200 7)
      (fun _ => 0) =
      ⟨FetchOutcome.ok 7, 3,
        [uniform MIN_TIMEOUT_ON_429 MAX_TIMEOUT_ON_429 0,
         uniform MIN_TIMEOUT_ON_429 MAX_TIMEOUT_ON_429 0]⟩ :=
  (C2_get_html_retries_on_429
    (fun i => if i < 2 then Attempt.resp 429 4 else Attempt.resp 200 7)
    (fun _ => 0) 4 4 7 (by simp) (by simp) (by simp)
    (fun k => ⟨by simp, by simp⟩)).1

/-- Claim C3: for every `get_html` call whose first scripted response has
status 400, the call issues exactly one request, performs no retries (and
in particular no backoff sleep), and fails with `BadStatusCode` carrying
the status code. -/
theorem C3_get_html_400_fails_immediately (script : Nat → Attempt)
    (rng : Nat → ℚ) (content : Nat)
    (h : script 0 = Attempt.resp 400 content) :
    get_html script rng = ⟨FetchOutcome.badStatus 400, 1, []⟩ := by
  simp [get_html, MAX_TRIES, get_html_go, h, get_html_finish]

/-- Witness for C3 at a concrete scripted session. -/
theorem C3_witness :
    get_html (fun _ => Attempt.resp 400 5) (fun _ => 0) =
      ⟨FetchOutcome.badStatus 400, 1, []⟩ :=
  C3_get_html_400_fails_immediately (fun _ => Attempt.resp 400 5)
    (fun _ => 0) 5 rfl

/-- A session whose 20 attempts are all rate-limited: every attempt is
exhausted, none yields a 200 response, yet `get_html` raises
`TimeoutError` (rate limited), not the `SystemError` transport failure
claim C4 predicts. -/
theorem C4_counterexample :
    (get_html (fun _ => Attempt.resp 429 0) (fun _ => 0)).outcome =
      FetchOutcome.rateLimited ∧
    FetchOutcome.rateLimited ≠ FetchOutcome.transportFailure := by
  exact ⟨rfl, by decide⟩

/-- The retry loop turns into its exit code once every remaining scripted
attempt raises a transport-level exception. -/
theorem get_html_go_all_exc (script : Nat → Attempt) (rng : Nat → ℚ) :
    ∀ (t i : Nat) (res : Option (Nat × Nat)) (n : Nat) (ss : List ℚ),
      (∀ j, i ≤ j → j < i + t → script j = Attempt.exc) →
      get_html_go script rng t i res n ss = get_html_finish res (n + t) ss := by
  intro t
  induction t with
  | zero => intro i res n ss _; simp [get_html_go]
  | succ t ih =>
    intro i res n ss h
    rw [get_html_go, h i (le_refl i) (by omega),
      ih (i + 1) res (n + 1) ss (fun j hj1 hj2 => h j (by omega) (by omega))]
    have : n + 1 + t = n + (t + 1) := by omega
    rw [this]

/-- Claim C4, amended: `get_html` fails with the `SystemError` transport
failure when all `MAX_TRIES = 20` attempts raise transport-level
exceptions, so that no HTTP response is received at all; exhausting the
attempts with responses received but no 200 instead fails with
`TimeoutError` or `BadStatusCode` according to the last received status. -/
theorem C4_amended_transport_failure (script : Nat → Attempt) (rng : Nat → ℚ)
    (h : ∀ i, i < MAX_TRIES → script i = Attempt.exc) :
    get_html script rng = ⟨FetchOutcome.transportFailure, MAX_TRIES, []⟩ := by
  rw [get_html, get_html_go_all_exc script rng MAX_TRIES 0 none 0 []
    (fun j hj1 hj2 => h j (by omega))]
  rfl

/-- Witness for the amended C4 at a concrete scripted session. -/
theorem C4_amended_witness :
    get_html (fun _ => Attempt.exc) (fun _ => 0) =
      ⟨FetchOutcome.transportFailure, MAX_TRIES, []⟩ :=
  C4_amended_transport_failure (fun _ => Attempt.exc) (fun _ => 0)
    (fun _ _ => rfl)

/-- A title filter call over records with no prior verdict and a
proper-subset index filter: the unselected row keeps a missing verdict, the
boolean mask `df[KEY_KEEP_JOB_AFTER_TITLE_FILTER]` therefore contains NaN,
and the call raises `ValueError` instead of returning the filtered
records — refuting claim C1's assertion that every dataframe and every
subset selection yields a normal return. -/
theorem C1_counterexample :
    filter_job_titles
      [⟨0, "Python dev".data, none⟩, ⟨1, "Java dev".data, none⟩]
      none none (some [ "java".data ]) (some [0]) =
      Except.error TitleFilterError.valueError := by
  rfl

/-- The verdict column holds a boolean on every row after the assignment
pass whenever every row outside the selected subset already held one, so
the boolean mask built by `df[df[KEY_KEEP_JOB_AFTER_TITLE_FILTER]]`
contains no NaN. -/
theorem titleFilter_mask_boolean (df : List TitleRow)
    (ak kp dc : Option (List (List Char))) (idxf : Option (List Nat))
    (hmask : ∀ r ∈ df, selected idxf r.idx = true ∨ r.keep.isSome = true) :
    (df.map (fun r0 =>
      if selected idxf r0.idx then titleFilterAssign ak kp dc r0
      else r0)).all (fun r => r.keep.isSome) = true := by
  rw [List.all_eq_true]
  intro r1 hr1
  obtain ⟨r, hr, rfl⟩ := List.mem_map.mp hr1
  by_cases hs : selected idxf r.idx = true
  · simp [hs, titleFilterAssign]
  · rcases hmask r hr with hsel | hkeep
    · exact absurd hsel hs
    · simp [hs, hkeep]

/-- Claim C1, amended: for every job dataframe and subset selection, when
at least one keyword set is supplied and every record outside the selected
subset already carries a boolean verdict (always the case when the whole
collection is selected), `filter_job_titles` assigns each selected record
the verdict `isAlwaysKeep OR (isKeep AND NOT isDiscard)` — each indicator
being case-insensitive substring containment of some keyword of its set in
the title, with defaults `false`/`true`/`false` when the set is absent —
and returns exactly the records whose stored verdict is true; supplying
only `discard = {"java"}` then keeps a selected title iff the title does
not contain "java" case-insensitively. When some unselected record lacks a
verdict, the boolean mask contains NaN and the call raises `ValueError`
instead of returning. -/
theorem C1_filter_job_titles (df : List TitleRow)
    (ak kp dc : Option (List (List Char))) (idxf : Option (List Nat))
    (h : ak ≠ none ∨ kp ≠ none ∨ dc ≠ none)
    (hmask : ∀ r ∈ df, selected idxf r.idx = true ∨ r.keep.isSome = true) :
    ∃ out, filter_job_titles df ak kp dc idxf = Except.ok out ∧
      (∀ r : TitleRow, selected idxf r.idx = true →
        (titleFilterAssign ak kp dc r).keep =
          some ((ak.elim false (fun ks => contains_keywords r.title ks)) ||
            ((kp.elim true (fun ks => contains_keywords r.title ks)) &&
              !(dc.elim false (fun ks => contains_keywords r.title ks))))) ∧
      (∀ r, r ∈ out ↔
        (r ∈ df.map (fun r0 =>
          if selected idxf r0.idx then titleFilterAssign ak kp dc r0
          else r0) ∧
        r.keep = some true)) ∧
      (ak = none → kp = none → dc = some [ "java".data ] →
        ∀ r ∈ df, selected idxf r.idx = true →
          (titleFilterAssign ak kp dc r ∈ out ↔
            isSubstr "java".data (pyLower r.title) = false)) := by
  have hcond : (ak.isNone && kp.isNone && dc.isNone) = false := by
    rcases h with h | h | h <;> cases ak <;> cases kp <;> cases dc <;>
      simp_all
  have hall := titleFilter_mask_boolean df ak kp dc idxf hmask
  refine ⟨(df.map (fun r0 =>
      if selected idxf r0.idx then titleFilterAssign ak kp dc r0
      else r0)).filter (fun r => r.keep == some true), ?_, ?_, ?_, ?_⟩
  · simp only [filter_job_titles, hcond, hall, Bool.false_eq_true, if_false,
      if_true]
  · intro r _
    cases ak <;> cases kp <;> cases dc <;>
      simp [titleFilterAssign, titleIndicators]
  · intro r
    simp [List.mem_filter]
  · rintro rfl rfl rfl r hr hsel
    have hmem : titleFilterAssign none none (some [ "java".data ]) r ∈
        df.map (fun r0 =>
          if selected idxf r0.idx then
            titleFilterAssign none none (some [ "java".data ]) r0
          else r0) := by
      refine List.mem_map.mpr ⟨r, hr, ?_⟩
      rw [hsel]
      rfl
    have hlow : pyLower "java".data = "java".data := by decide
    constructor
    · intro hout
      have := (List.mem_filter.mp hout).2
      simp [titleFilterAssign, titleIndicators, contains_keywords, hlow] at this
      simp [this]
    · intro hjava
      refine List.mem_filter.mpr ⟨hmem, ?_⟩
      simp [titleFilterAssign, titleIndicators, contains_keywords, hlow, hjava]

/-- Witness for C1: a dataframe with a Python row and a Java row filtered
with only the discard set `{"java"}` supplied. -/
theorem C1_witness :
    ∃ out, filter_job_titles
        [⟨0, "Python dev".data, none⟩, ⟨1, "Senior Java dev".data, none⟩]
        none none (some [ "java".data ]) none = Except.ok out ∧
      titleFilterAssign none none (some [ "java".data ])
        ⟨0, "Python dev".data, none⟩ ∈ out ∧
      ¬titleFilterAssign none none (some [ "java".data ])
        ⟨1, "Senior Java dev".data, none⟩ ∈ out := by
  obtain ⟨out, hok, hassign, hmem, hjava⟩ :=
    C1_filter_job_titles
      [⟨0, "Python dev".data, none⟩, ⟨1, "Senior Java dev".data, none⟩]
      none none (some [ "java".data ]) none (Or.inr (Or.inr (by simp)))
      (fun r _ => Or.inl rfl)
  refine ⟨out, hok, ?_, ?_⟩
  · exact (hjava rfl rfl rfl ⟨0, "Python dev".data, none⟩ (by simp)
      (by rfl)).mpr (by decide)
  · intro hc
    have := (hjava rfl rfl rfl ⟨1, "Senior Java dev".data, none⟩ (by simp)
      (by rfl)).mp hc
    exact absurd this (by decide)

/-- Claim C10: `contains_keywords` with an empty keyword iterable returns
false for every string; consequently, in `filter_job_titles` (on any call
whose boolean mask is NaN-free: every record outside the selected subset
already carries a boolean verdict) an explicitly empty (non-None) keep set
makes every selected record's verdict equal the `isAlwaysKeep` indicator
alone, while an absent (None) keep set defaults `isKeep` to true so the
verdict is `isAlwaysKeep OR NOT isDiscard`. -/
theorem C10_empty_keep_set :
    (∀ s, contains_keywords s [] = false) ∧
    (∀ (df : List TitleRow) (ak dc : Option (List (List Char)))
        (idxf : Option (List Nat)),
      (∀ r ∈ df, selected idxf r.idx = true ∨ r.keep.isSome = true) →
      filter_job_titles df ak (some []) dc idxf =
        Except.ok ((df.map (fun r =>
          if selected idxf r.idx then
            { r with keep := some (ak.elim false
                (fun ks => contains_keywords r.title ks)) }
          else r)).filter (fun r => r.keep == some true))) ∧
    (∀ (df : List TitleRow) (ak dc : Option (List (List Char)))
        (idxf : Option (List Nat)), ak ≠ none ∨ dc ≠ none →
      (∀ r ∈ df, selected idxf r.idx = true ∨ r.keep.isSome = true) →
      filter_job_titles df ak none dc idxf =
        Except.ok ((df.map (fun r =>
          if selected idxf r.idx then
            { r with keep := some ((ak.elim false
                (fun ks => contains_keywords r.title ks)) ||
                !(dc.elim false (fun ks => contains_keywords r.title ks))) }
          else r)).filter (fun r => r.keep == some true))) := by
  refine ⟨fun s => rfl, ?_, ?_⟩
  · intro df ak dc idxf hmask
    have hcond : (ak.isNone && (some ([] : List (List Char))).isNone &&
        dc.isNone) = false := by
      cases ak <;> cases dc <;> simp
    have hall := titleFilter_mask_boolean df ak (some []) dc idxf hmask
    simp only [filter_job_titles, hcond, hall, Bool.false_eq_true, if_false,
      if_true, Except.ok.injEq]
    congr 1
    refine List.map_congr_left (fun r _ => ?_)
    cases ak <;> cases dc <;>
      simp [titleFilterAssign, titleIndicators, contains_keywords]
  · intro df ak dc idxf hsome hmask
    have hcond : (ak.isNone && (none : Option (List (List Char))).isNone &&
        dc.isNone) = false := by
      rcases hsome with h | h <;> cases ak <;> cases dc <;> simp_all
    have hall := titleFilter_mask_boolean df ak none dc idxf hmask
    simp only [filter_job_titles, hcond, hall, Bool.false_eq_true, if_false,
      if_true, Except.ok.injEq]
    congr 1
    refine List.map_congr_left (fun r _ => ?_)
    cases ak <;> cases dc <;>
      simp [titleFilterAssign, titleIndicators, contains_keywords]

/-- Witness for C10: one dataframe filtered with an explicitly empty keep
set (verdict collapses to the always-keep indicator) and with an absent
keep set (verdict is `isAlwaysKeep OR NOT isDiscard`). -/
theorem C10_witness :
    filter_job_titles [⟨0, "Python dev".data, none⟩] (some [ "python".data ])
      (some []) none none =
      Except.ok [⟨0, "Python dev".data, some true⟩] ∧
    filter_job_titles [⟨0, "Cobol dev".data, none⟩] (some [ "python".data ])
      (some []) none none = Except.ok [] ∧
    filter_job_titles [⟨0, "Cobol dev".data, none⟩] (some [ "python".data ])
      none none none =
      Except.ok [⟨0, "Cobol dev".data, some true⟩] := by
  refine ⟨?_, ?_, ?_⟩
  · rw [C10_empty_keep_set.2.1 [⟨0, "Python dev".data, none⟩]
      (some [ "python".data ]) none none (fun r _ => Or.inl rfl)]
    rfl
  · rw [C10_empty_keep_set.2.1 [⟨0, "Cobol dev".data, none⟩]
      (some [ "python".data ]) none none (fun r _ => Or.inl rfl)]
    rfl
  · rw [C10_empty_keep_set.2.2 [⟨0, "Cobol dev".data, none⟩]
      (some [ "python".data ]) none none (Or.inl (by simp))
      (fun r _ => Or.inl rfl)]
    rfl

/-- A crawl whose page 0 yields zero listing entries and whose page 1 is
non-empty: page 1 is still requested (and its record gathered) after the
empty page, refuting claim C5's assertion that no page after the first
empty page is requested. -/
theorem C5_counterexample :
    ((fun p => if p = 0 then PageResult.page [] else PageResult.page [5]) 0 =
      PageResult.page ([] : List Nat)) ∧
    scrape_jobs
      (fun p => if p = 0 then PageResult.page [] else PageResult.page [5])
      0 20 = ⟨[0, 1], [5], 0⟩ ∧
    1 ∈ (scrape_jobs
      (fun p => if p = 0 then PageResult.page [] else PageResult.page [5])
      0 20).requestedPages := by
  refine ⟨rfl, by decide, by decide⟩

/-- The pagination loop requests every page of its range when no fetch
fails, regardless of how many pages are empty. -/
theorem scrape_loop_no_error (script : Nat → PageResult)
    (h : ∀ p e, script p ≠ PageResult.fetchError e) :
    ∀ (ps : List Nat) (tr : ScrapeTrace),
      (scrape_loop script ps tr).requestedPages = tr.requestedPages ++ ps := by
  intro ps
  induction ps with
  | nil => intro tr; simp [scrape_loop]
  | cons p rest ih =>
    intro tr
    cases hc : script p with
    | fetchError e => exact absurd hc (h p e)
    | page es => simp [scrape_loop, hc, ih]

/-- Claim C5, amended: a listing page yielding zero entries does not stop
the crawl — `scrape_jobs` skips it (`continue`) and requests the next page;
pagination stops only on a fetch failure or when the page range
`range(page_start, ceil_div(n_jobs, N_JOBS_PER_PAGE))` is exhausted. In
particular, when no fetch fails every page of the range is requested,
empty pages included. -/
theorem C5_amended_empty_page_continues (script : Nat → PageResult)
    (page_start : Nat) (n_jobs : Int)
    (h : ∀ p e, script p ≠ PageResult.fetchError e) :
    (scrape_jobs script page_start n_jobs).requestedPages =
      List.range' page_start
        ((ceil_div n_jobs (Int.ofNat N_JOBS_PER_PAGE)).toNat - page_start) := by
  rw [scrape_jobs, scrape_loop_no_error script h]
  rfl

/-- Witness for the amended C5: every page of the range is requested even
when every page is empty. -/
theorem C5_amended_witness :
    (scrape_jobs (fun _ => PageResult.page []) 0 30).requestedPages =
      [0, 1, 2] := by
  rw [C5_amended_empty_page_continues (fun _ => PageResult.page []) 0 30
    (fun p e => by simp)]
  decide

/-- Running the pagination loop across pages that all fetch successfully
accumulates their requests and their entries in page-then-entry order. -/
theorem scrape_loop_ok_prefix (script : Nat → PageResult) :
    ∀ (ps qs : List Nat) (tr : ScrapeTrace),
      (∀ p ∈ ps, ∀ e, script p ≠ PageResult.fetchError e) →
      scrape_loop script (ps ++ qs) tr =
        scrape_loop script qs
          { requestedPages := tr.requestedPages ++ ps
            jobs := tr.jobs ++ ps.flatMap (fun p =>
              match script p with
              | PageResult.page es => es
              | PageResult.fetchError _ => [])
            warnings := tr.warnings } := by
  intro ps
  induction ps with
  | nil => intro qs tr _; simp
  | cons p rest ih =>
    intro qs tr h
    cases hc : script p with
    | fetchError e => exact absurd hc (h p (List.mem_cons_self p rest) e)
    | page es =>
      simp only [List.cons_append, scrape_loop, hc, List.append_eq]
      rw [ih qs _ (fun q hq e => h q (List.mem_cons_of_mem p hq) e)]
      simp [hc, List.append_assoc]

/-- Claim C6: if fetching listing page `k` fails with any of the three
fetch errors while all earlier pages of the range fetched successfully,
`scrape_jobs` logs one warning, requests no page beyond `k`, and returns
normally the records gathered from the pages before `k` in page-then-entry
order. -/
theorem C6_scrape_jobs_returns_gathered (script : Nat → PageResult)
    (page_start k : Nat) (n_jobs : Int) (e : FetchErr)
    (hk1 : page_start ≤ k)
    (hk2 : k < (ceil_div n_jobs (Int.ofNat N_JOBS_PER_PAGE)).toNat)
    (hprev : ∀ p, page_start ≤ p → p < k →
      ∀ e2, script p ≠ PageResult.fetchError e2)
    (hfail : script k = PageResult.fetchError e) :
    scrape_jobs script page_start n_jobs =
      ⟨List.range' page_start (k - page_start) ++ [k],
       (List.range' page_start (k - page_start)).flatMap (fun p =>
         match script p with
         | PageResult.page es => es
         | PageResult.fetchError _ => []),
       1⟩ := by
  set stop := (ceil_div n_jobs (Int.ofNat N_JOBS_PER_PAGE)).toNat with hstop
  have hsplit : List.range' page_start (stop - page_start) =
      List.range' page_start (k - page_start) ++
        List.range' k (stop - k) := by
    have h1 := List.range'_append page_start (k - page_start)
      (stop - k) 1
    simp only [one_mul] at h1
    have h2 : page_start + (k - page_start) = k := by omega
    rw [h2] at h1
    have h4 : stop - k + (k - page_start) = stop - page_start := by omega
    rw [h4] at h1
    exact h1.symm
  have hk : List.range' k (stop - k) = k :: List.range' (k + 1) (stop - k - 1) := by
    obtain ⟨m, hm⟩ : ∃ m, stop - k = m + 1 := ⟨stop - k - 1, by omega⟩
    rw [hm, List.range'_succ]
    simp
  rw [scrape_jobs, ← hstop, hsplit,
    scrape_loop_ok_prefix script _ _ _ (fun p hp e2 => by
      have := List.mem_range'_1.mp hp
      exact hprev p this.1 (by omega) e2),
    hk]
  simp only [scrape_loop, hfail]
  simp

/-- Witness for C6: a crawl over a five-page range failing on page 2 still
returns the records of pages 0 and 1, in page-then-entry order. -/
theorem C6_witness :
    scrape_jobs
      (fun p =>
        if p = 2 then PageResult.fetchError FetchErr.rateLimited
        else PageResult.page [p, p + 100]) 0 50 =
      ⟨[0, 1, 2], [0, 100, 1, 101], 1⟩ := by
  rw [C6_scrape_jobs_returns_gathered
    (fun p =>
      if p = 2 then PageResult.fetchError FetchErr.rateLimited
      else PageResult.page [p, p + 100]) 0 2 50 FetchErr.rateLimited
    (by omega) (by decide)
    (fun p hp1 hp2 e2 => by
      interval_cases p <;> simp)
    (by simp)]
  decide

/-- A description pass over one record whose description element is
missing: the record is marked with the `UNKNOWN` sentinel, yet its
`has_job_description` is recomputed to true (the sentinel is a non-null
string) and the record is returned — refuting claim C7's assertion that
`hasDescription` equals "present and not the UNKNOWN sentinel". Moreover a
record whose fetch fails entirely (`SystemError`) aborts the batch instead
of being marked `UNKNOWN`. -/
theorem C7_counterexample :
    get_job_descriptions [⟨0, "1".data, none, false⟩] none
        (fun _ => DescrFetch.doc none) =
      Except.ok [⟨0, "1".data, some UNKNOWN, true⟩] ∧
    ((⟨0, "1".data, some UNKNOWN, true⟩ : DescRow).hasDescription = true ∧
      (⟨0, "1".data, some UNKNOWN, true⟩ : DescRow).description =
        some UNKNOWN) ∧
    get_job_descriptions [⟨0, "1".data, none, false⟩] none
        (fun _ => DescrFetch.err FetchErr.transportFailure) =
      Except.error () := by
  exact ⟨rfl, ⟨rfl, rfl⟩, rfl⟩

/-- `get_html_job_description` returns normally whenever the underlying
fetch does not raise the uncaught `SystemError`. -/
theorem get_html_job_description_no_syserr (fetch : List Char → DescrFetch)
    (j : List Char) (h : fetch j ≠ DescrFetch.err FetchErr.transportFailure) :
    get_html_job_description fetch j =
      Except.ok (match fetch j with
        | DescrFetch.doc d => d
        | DescrFetch.err _ => none) := by
  cases hc : fetch j with
  | doc d => simp [get_html_job_description, hc]
  | err e => cases e <;> simp_all [get_html_job_description]

/-- `mapM` over `Except` of a function that never fails is `map`. -/
theorem mapM_ok_of_fn {α β : Type} (f : α → Except Unit β) (g : α → β)
    (h : ∀ a, f a = Except.ok (g a)) :
    ∀ l : List α, l.mapM f = Except.ok (l.map g) := by
  intro l
  induction l with
  | nil => rfl
  | cons a l ih =>
    rw [List.mapM_cons, h a, ih]
    rfl

/-- Claim C7, amended: after a description-fetch pass over any dataframe
and subset in which no fetch raises the uncaught `SystemError`, every
selected record's description is the fetched text — or the `UNKNOWN`
sentinel when the fetch raised a caught error or the description element
was missing — `hasDescription` is recomputed on every record as
"description column non-null" (the `UNKNOWN` sentinel counts as a
description), and the returned collection is exactly the records with
`hasDescription = true`. A `SystemError` fetch failure instead aborts the
batch. -/
theorem C7_amended_descriptions (df : List DescRow)
    (idxf : Option (List Nat)) (fetch : List Char → DescrFetch)
    (hnf : ∀ j, fetch j ≠ DescrFetch.err FetchErr.transportFailure) :
    get_job_descriptions df idxf fetch =
      Except.ok ((df.map (fun r =>
        if selected idxf r.idx then
          { r with
            description := some (match fetch r.jobId with
              | DescrFetch.doc (some d) => d
              | _ => UNKNOWN)
            hasDescription := true }
        else { r with hasDescription := r.description.isSome })).filter
        (fun r => r.hasDescription)) := by
  rw [get_job_descriptions]
  rw [mapM_ok_of_fn _
    (fun r : DescRow =>
      if selected idxf r.idx then
        { r with description := some ((match fetch r.jobId with
            | DescrFetch.doc d => d
            | DescrFetch.err _ => none).getD UNKNOWN) }
      else r)
    (fun r => by
      by_cases hs : selected idxf r.idx = true
      · simp only [hs, if_true,
          get_html_job_description_no_syserr fetch r.jobId (hnf r.jobId)]
        rfl
      · simp only [Bool.not_eq_true] at hs
        simp only [hs, Bool.false_eq_true, if_false]
        rfl) df]
  refine congrArg Except.ok ?_
  rw [List.map_map]
  refine congrArg (List.filter (fun r : DescRow => r.hasDescription)) ?_
  refine List.map_congr_left (fun r _ => ?_)
  by_cases hs : selected idxf r.idx
  · cases hc : fetch r.jobId with
    | doc d => cases d <;> simp [hs, Function.comp, hc]
    | err e => cases e <;> simp [hs, Function.comp, hc]
  · simp [hs, Function.comp]

/-- Witness for the amended C7: one record with a found description, one
with a missing description element, one whose fetch is rate limited, and
one outside the subset. -/
theorem C7_amended_witness :
    get_job_descriptions
      [⟨0, "a".data, none, false⟩, ⟨1, "b".data, none, false⟩,
       ⟨2, "c".data, none, false⟩, ⟨3, "d".data, none, false⟩]
      (some [0, 1, 2])
      (fun j =>
        if j = "a".data then DescrFetch.doc (some "we use python".data)
        else if j = "b".data then DescrFetch.doc none
        else DescrFetch.err FetchErr.rateLimited) =
      Except.ok
        [⟨0, "a".data, some "we use python".data, true⟩,
         ⟨1, "b".data, some UNKNOWN, true⟩,
         ⟨2, "c".data, some UNKNOWN, true⟩] := by
  rw [C7_amended_descriptions _ _ _
    (fun j => by
      by_cases h1 : j = "a".data
      · simp [h1]
      · by_cases h2 : j = "b".data <;> simp [h1, h2])]
  rfl

/-- Claim C8: every record targeted by `filter_job_descriptions` whose
description equals the `UNKNOWN` sentinel gets the `UNKNOWN` sentinel as
its verdict and is included in the returned collection regardless of the
keyword set and of the mark flag; and the returned collection is exactly
the records of the reassigned dataframe whose verdict is `True` or the
`UNKNOWN` sentinel. -/
theorem C8_filter_job_descriptions (df : List FilterDescrRow)
    (keywords : List (List Char)) (idxf : Option (List Nat)) (mark : Bool) :
    (∀ r ∈ df, selected idxf r.idx = true → r.description = some UNKNOWN →
      (descrFilterRowUpdate keywords mark
        { r with verdict := none, marked := none }).verdict =
          some DV.unknown ∧
      descrFilterRowUpdate keywords mark
        { r with verdict := none, marked := none } ∈
        filter_job_descriptions df keywords idxf mark) ∧
    (∀ r, r ∈ filter_job_descriptions df keywords idxf mark ↔
      (r ∈ df.map (fun r0 =>
        if selected idxf r0.idx then
          descrFilterRowUpdate keywords mark
            { r0 with verdict := none, marked := none }
        else { r0 with verdict := none, marked := none }) ∧
      (r.verdict = some (DV.b true) ∨ r.verdict = some DV.unknown))) := by
  have hmm : filter_job_descriptions df keywords idxf mark =
      (df.map (fun r0 =>
        if selected idxf r0.idx then
          descrFilterRowUpdate keywords mark
            { r0 with verdict := none, marked := none }
        else { r0 with verdict := none, marked := none })).filter
        (fun r =>
          r.verdict == some (DV.b true) || r.verdict == some DV.unknown) := by
    rw [filter_job_descriptions, List.map_map]
    exact congrArg (List.filter _) (List.map_congr_left fun r _ => rfl)
  have hverd : ∀ r : FilterDescrRow, r.description = some UNKNOWN →
      (descrFilterRowUpdate keywords mark
        { r with verdict := none, marked := none }).verdict =
        some DV.unknown := by
    intro r hd
    simp [descrFilterRowUpdate, hd]
  constructor
  · intro r hr hsel hd
    refine ⟨hverd r hd, ?_⟩
    rw [hmm]
    refine List.mem_filter.mpr ⟨List.mem_map.mpr ⟨r, hr, ?_⟩, ?_⟩
    · rw [hsel]
      rfl
    · simp [hverd r hd]
  · intro r
    rw [hmm]
    simp [List.mem_filter]

/-- Witness for C8: a dataframe whose single record carries the `UNKNOWN`
description (and stale verdict and marked columns) survives the filter
with the `UNKNOWN` verdict. -/
theorem C8_witness :
    (descrFilterRowUpdate [ "python".data ] true
      ⟨0, some UNKNOWN, none, none⟩).verdict = some DV.unknown ∧
    descrFilterRowUpdate [ "python".data ] true
      ⟨0, some UNKNOWN, none, none⟩ ∈
      filter_job_descriptions
        [⟨0, some UNKNOWN, some (DV.b false), some "x".data⟩]
        [ "python".data ] none true :=
  (C8_filter_job_descriptions
      [⟨0, some UNKNOWN, some (DV.b false), some "x".data⟩]
      [ "python".data ] none true).1
    ⟨0, some UNKNOWN, some (DV.b false), some "x".data⟩
    (by simp) rfl rfl

/-- `_format_url_metadata` joins the work-location codes in the order of
the supplied tuple, not in the fixed enum order `ON_SITE, REMOTE, HYBRID`
that claim C9 asserts: the tuple `(HYBRID, REMOTE)` yields `"3,2"`, while
the fixed enum order would yield `"2,3"`. -/
theorem C9_counterexample :
    (format_url_metadata "python".data 1 "Nederland".data "102890719".data
      [WL.HYBRID, WL.REMOTE]).work_location = "3,2".data ∧
    join_wl_spec_enum_order [WL.HYBRID, WL.REMOTE] = "2,3".data ∧
    (format_url_metadata "python".data 1 "Nederland".data "102890719".data
      [WL.HYBRID, WL.REMOTE]).work_location ≠
      join_wl_spec_enum_order [WL.HYBRID, WL.REMOTE] := by
  exact ⟨by decide, by decide, by decide⟩

/-- Claim C9, amended: `_format_url_metadata` is a pure function of its
arguments whose emitted seconds value equals `n_days * 86400` exactly and
whose work-location parameter is the comma-joined code string of the
work-location entries in the order of the supplied tuple. -/
theorem C9_amended_format_url_metadata (keywords : List Char) (n_days : Int)
    (location geo_id : List Char) (work_location : List WL) :
    (format_url_metadata keywords n_days location geo_id
      work_location).n_seconds = n_days * 86400 ∧
    (format_url_metadata keywords n_days location geo_id
      work_location).work_location =
      join_wl_spec_input_order work_location := by
  constructor
  · show convert_days_to_sec n_days = n_days * 86400
    rw [convert_days_to_sec]
    ring
  · show join_wl work_location = join_wl_spec_input_order work_location
    induction work_location with
    | nil => rfl
    | cons w rest ih =>
      cases rest with
      | nil => simp [join_wl, List.intercalate, join_wl_spec_input_order]
      | cons w2 rest2 =>
        have hc : ",".data = [','] := rfl
        have hstep : join_wl (w :: w2 :: rest2) =
            w.value ++ ',' :: join_wl (w2 :: rest2) := by
          simp only [join_wl, List.intercalate, List.map_cons, hc,
            List.intersperse_cons_cons]
          simp
        rw [hstep, ih, join_wl_spec_input_order]

end JobScraper
